import Mathlib

/-!
Verification of the puppeteer-cluster fork scheduler/worker core against its
natural-language specification.

The development shallowly embeds the TypeScript sources:
  * `src/src/Worker.ts` (`Worker.handle`, `Worker.canHandle`, `Worker.isIdle`);
  * the `Cluster` class (`doWork`, `execute`/result dispatch, `close`, `idle`).
External collaborators (the concurrency provider, the worker pool, timers) are
modelled as oracles: every external call's outcome is a field of an environment
record, and provider calls are recorded in an explicit effect trace.  Job and
queue value types, whose sources are not part of the corpus, are modelled from
the specification (see the doc comments marked `Modelled from the spec:`).
-/

/-- A JavaScript `Error` value, reduced to its message (the only part the core
ever inspects or that the spec talks about). -/
structure JSError where
  msg : String
deriving DecidableEq, Repr

/-- `WorkResult` from `Worker.ts`: either `{type: "success", data}` or
`{type: "error", error}`. -/
inductive WorkResult (R : Type) where
  | success (data : R)
  | error (e : JSError)
deriving DecidableEq, Repr

/-- `BROWSER_INSTANCE_TRIES` from `Worker.ts`. -/
def BROWSER_INSTANCE_TRIES : Nat := 10

/-- Trace entries for the provider calls made by `Worker.handle`. -/
inductive WEffect where
  | jobInstanceCalled (attempt : Nat)
  | repairCalled
  | closeCalled
deriving DecidableEq, Repr

/-- Oracle for one call of `Worker.handle`: the outcome of every external
interaction the body can perform.  `jobInstance i` is the outcome of the
`i`-th acquisition attempt, `acquireRepair i` the outcome of the `repair`
call made after the `i`-th failed attempt, `pageError` an asynchronous
`page.on("error")` event captured while the task ran, `taskOutcome` the
outcome of the user task under `timeoutExecute` (a timeout surfaces as an
`Except.error`), `closeOutcome` the outcome of `jobInstance.close()`, and
`releaseRepair` the outcome of the `repair` call made when `close` failed. -/
structure HandleEnv (R : Type) where
  jobInstance : Nat → Except JSError Unit
  acquireRepair : Nat → Except JSError Unit
  pageError : Option JSError
  taskOutcome : Except JSError R
  closeOutcome : Except JSError Unit
  releaseRepair : Except JSError Unit

/-- JavaScript `list.splice(list.indexOf(a), 1)`: removes the first occurrence
of `a` when present; when `indexOf` yields `-1`, `splice(-1, 1)` removes the
last element. -/
def spliceIndexOf {J : Type} [DecidableEq J] (l : List J) (a : J) : List J :=
  if a ∈ l then l.erase a else l.dropLast

/-- The acquisition loop of `Worker.handle` (`while (jobInstance === null)`).
`tries` is the counter from the source; the `fuel` argument only bounds the
recursion and is chosen so that it never reaches `0` before the source's own
`tries >= BROWSER_INSTANCE_TRIES` exit fires.  Returns the loop's outcome
(`Except.error` models the loop throwing) and the trace of provider calls. -/
def acquireLoop {R : Type} (env : HandleEnv R) :
    Nat → Nat → Except JSError Unit × List WEffect
  | _, 0 => (Except.error ⟨"Unable to get browser page"⟩, [])
  | tries, fuel + 1 =>
    match env.jobInstance tries with
    | Except.ok _ => (Except.ok (), [WEffect.jobInstanceCalled tries])
    | Except.error _ =>
      match env.acquireRepair tries with
      | Except.error e =>
        (Except.error e, [WEffect.jobInstanceCalled tries, WEffect.repairCalled])
      | Except.ok _ =>
        if tries + 1 ≥ BROWSER_INSTANCE_TRIES then
          (Except.error ⟨"Unable to get browser page"⟩,
            [WEffect.jobInstanceCalled tries, WEffect.repairCalled])
        else
          let rest := acquireLoop env (tries + 1) fuel
          (rest.1, WEffect.jobInstanceCalled tries :: WEffect.repairCalled :: rest.2)

/-- `Worker.handle` from `Worker.ts`.  The first component is the call's
outcome — `Except.error e` models `handle` throwing/rejecting with `e`,
`Except.ok r` models it returning the `WorkResult` `r`; the second component
is the worker's `activeJobs` list after the call; the third is the trace of
provider calls.  Mirrors the source: push the job, run the acquisition loop,
run the task (the last write to `errorState` wins: a task throw overwrites a
captured page error), release via `jobInstance.close()` with `repair` on
release failure, splice the job out, then return by `errorState`. -/
def Worker.handle {R J : Type} [DecidableEq J] (env : HandleEnv R)
    (activeJobs : List J) (job : J) :
    Except JSError (WorkResult R) × List J × List WEffect :=
  let active1 := activeJobs ++ [job]
  let acq := acquireLoop env 0 BROWSER_INSTANCE_TRIES
  match acq.1 with
  | Except.error e => (Except.error e, active1, acq.2)
  | Except.ok _ =>
    let rel : Except JSError Unit × List WEffect :=
      match env.closeOutcome with
      | Except.ok _ => (Except.ok (), [WEffect.closeCalled])
      | Except.error _ =>
        match env.releaseRepair with
        | Except.ok _ => (Except.ok (), [WEffect.closeCalled, WEffect.repairCalled])
        | Except.error e =>
          (Except.error e, [WEffect.closeCalled, WEffect.repairCalled])
    match rel.1 with
    | Except.error e => (Except.error e, active1, acq.2 ++ rel.2)
    | Except.ok _ =>
      let active2 := spliceIndexOf active1 job
      match env.taskOutcome with
      | Except.error e =>
        (Except.ok (WorkResult.error e), active2, acq.2 ++ rel.2)
      | Except.ok r =>
        match env.pageError with
        | some e => (Except.ok (WorkResult.error e), active2, acq.2 ++ rel.2)
        | none => (Except.ok (WorkResult.success r), active2, acq.2 ++ rel.2)

/-- `Worker.canHandle` from `Worker.ts`:
`this.browser.canHandle?.(job.data) || this.activeJobs.length === 0`.
When the provider defines no `canHandle`, the optional call yields
`undefined`, which is falsy, so the `||` falls through. -/
def Worker.canHandle {D J : Type} (providerCanHandle : Option (D → Bool))
    (activeJobs : List J) (data : D) : Bool :=
  (match providerCanHandle with
   | some f => f data
   | none => false) || activeJobs.length == 0

/-- `Worker.isIdle` from `Worker.ts`. -/
def Worker.isIdle {J : Type} (activeJobs : List J) : Bool :=
  activeJobs.length == 0

/-- Number of `repair` calls in a worker effect trace. -/
def repairCount (l : List WEffect) : Nat :=
  (l.filter (fun ev => ev == WEffect.repairCalled)).length

/-- Modelled from the spec: the `Job` value object (`Job.ts` is not part of
the corpus).  `id` models JavaScript object identity (queue removal and
callback attribution compare jobs by identity); `url`/`domain` are the
derived `getUrl()`/`getDomain()` extractors on the opaque payload;
`hasCallbacks` records whether `executeCallbacks` is present (the job came
from `execute`); `hasTaskFunction` whether a per-job task is set; `tries`
the attempt counter; `errors` the list built up by `addError`. -/
structure Job (D : Type) where
  id : Nat
  data : D
  url : Option String
  domain : Option String
  hasCallbacks : Bool
  hasTaskFunction : Bool
  tries : Nat
  errors : List JSError
deriving DecidableEq, Repr

/-- Modelled from the spec: `Job.addError` appends the error to the job's
accumulated error list. -/
def Job.addError {D : Type} (j : Job D) (e : JSError) : Job D :=
  { j with errors := j.errors ++ [e] }

/-- Modelled from the spec: one entry of the delay-aware job queue
(`Queue.ts` is not part of the corpus): an item together with its optional
`delayUntil` timestamp (unix ms). -/
structure Entry (D : Type) where
  job : Job D
  delayUntil : Option Int
deriving DecidableEq, Repr

/-- Modelled from the spec: `Queue.peek()` returns the first entry whose
`delayUntil` is absent or `≤ now`, else `undefined`. -/
def queuePeek {D : Type} (now : Int) : List (Entry D) → Option (Job D)
  | [] => none
  | e :: rest =>
    match e.delayUntil with
    | none => some e.job
    | some t => if t ≤ now then some e.job else queuePeek now rest

/-- Modelled from the spec: `Queue.remove(item)` removes the first entry
holding the item (identity comparison, here by job id). -/
def queueRemove {D : Type} (jid : Nat) : List (Entry D) → List (Entry D)
  | [] => []
  | e :: rest => if e.job.id = jid then rest else e :: queueRemove jid rest

/-- Modelled from the spec: `Queue.push(item, {delayUntil})` appends an
entry. -/
def queuePush {D : Type} (q : List (Entry D)) (j : Job D) (du : Option Int) :
    List (Entry D) :=
  q ++ [⟨j, du⟩]

/-- JavaScript `Set.add`: insert if absent (insertion order preserved). -/
def setInsert (l : List String) (u : String) : List String :=
  if l.contains u then l else l ++ [u]

/-- JavaScript `Map.set`: replace the value at the first matching key, else
append the binding. -/
def mapSet (k : String) (v : Int) : List (String × Int) → List (String × Int)
  | [] => [(k, v)]
  | (k0, v0) :: rest =>
    if k0 = k then (k, v) :: rest else (k0, v0) :: mapSet k v rest

/-- JavaScript `Map.get`. -/
def mapGet (k : String) : List (String × Int) → Option Int
  | [] => none
  | (k0, v0) :: rest => if k0 = k then some v0 else mapGet k rest

/-- The `Cluster` options consulted by `doWork` (defaults per
`DEFAULT_OPTIONS`). -/
structure ClusterOpts where
  retryLimit : Nat
  retryDelay : Int
  skipDuplicateUrls : Bool
  sameDomainDelay : Int
deriving DecidableEq, Repr

/-- The `Cluster` state mutated by `doWork` (fields of the `Cluster` class;
the job queue and job values are spec-modelled, see `Entry` and `Job`).
`clusterTaskDefined` records whether `this.taskFunction` is non-null. -/
structure ClusterState (D : Type) where
  options : ClusterOpts
  jobQueue : List (Entry D)
  duplicateCheckUrls : List String
  lastDomainAccesses : List (String × Int)
  idleResolvers : List Nat
  waitForOneResolvers : List Nat
  errorCount : Nat
  clusterTaskDefined : Bool
deriving DecidableEq, Repr

/-- Oracle for one `doWork` iteration: the answers of the worker pool
(`Workers.ts` is external to the corpus) and the outcome of
`worker.handle` — `Except.error` models `handle` rejecting (the promise
throwing), `Except.ok` models it returning a `WorkResult`. -/
structure StepEnv (R : Type) where
  isAnyJobActive : Bool
  canHandle : Bool
  canLaunchWorker : Bool
  getWorkerSome : Bool
  hasFreeCapacity : Bool
  handleOutcome : Except JSError (WorkResult R)

/-- Observable events of one `doWork` iteration, in program order. -/
inductive Event (D R : Type) where
  | idleResolved (rid : Nat)
  | waitForOneResolved (rid : Nat) (data : D)
  | workRequested
  | workerLaunched
  | dispatched (jobId : Nat) (url : Option String)
  | taskerror (e : JSError) (data : D) (willRetry : Bool)
  | executeResolved (jobId : Nat) (data : R)
  | executeRejected (jobId : Nat) (e : JSError)
deriving DecidableEq, Repr

/-- Result of one `doWork` iteration: the new cluster state, the events in
order, and — when the body threw before completing — the message of the
uncaught error (`crashed`), in which case the later statements of the body
never ran. -/
structure StepOut (D R : Type) where
  state : ClusterState D
  events : List (Event D R)
  crashed : Option String
deriving DecidableEq, Repr

/-- The condition of `doWork`'s duplicate-URL filter:
`skipDuplicateUrls && url !== undefined && duplicateCheckUrls.has(url)`. -/
def shouldSkipDuplicate {D : Type} (s : ClusterState D) (job : Job D) : Bool :=
  s.options.skipDuplicateUrls &&
    (match job.url with
     | some u => s.duplicateCheckUrls.contains u
     | none => false)

/-- The same-domain-delay filter of `doWork`: when
`sameDomainDelay !== 0`, the domain is defined, and its recorded last access
`t` satisfies `t + sameDomainDelay > now`, yields the `delayUntil` value
`t + sameDomainDelay` the job is re-pushed with; else `none`. -/
def domainDelayInfo {D : Type} (s : ClusterState D) (now : Int) (job : Job D) :
    Option Int :=
  if s.options.sameDomainDelay ≠ 0 then
    match job.domain with
    | some d =>
      match mapGet d s.lastDomainAccesses with
      | some t =>
        if t + s.options.sameDomainDelay > now then
          some (t + s.options.sameDomainDelay)
        else none
      | none => none
    | none => none
  else none

/-- The result-dispatch section of `doWork` (source lines handling
`result.type`): given the job as mutated by this attempt and the returned
`WorkResult`, yields the updated state and the emitted events.  On an error
result with `executeCallbacks`: reject once and bump `errorCount`; without
callbacks: `addError`, emit `taskerror` with `willRetry = tries ≤ retryLimit`,
re-push with `delayUntil = now + retryDelay` iff `retryDelay !== 0` when
retrying, else bump `errorCount`.  On success: resolve iff callbacks. -/
def processResult {D R : Type} (s : ClusterState D) (now : Int) (job : Job D)
    (result : WorkResult R) : ClusterState D × List (Event D R) :=
  match result with
  | WorkResult.error e =>
    if job.hasCallbacks then
      ({ s with errorCount := s.errorCount + 1 }, [Event.executeRejected job.id e])
    else
      let job2 := job.addError e
      if job2.tries ≤ s.options.retryLimit then
        let du : Option Int :=
          if s.options.retryDelay ≠ 0 then some (now + s.options.retryDelay)
          else none
        ({ s with jobQueue := queuePush s.jobQueue job2 du },
          [Event.taskerror e job2.data true])
      else
        ({ s with errorCount := s.errorCount + 1 },
          [Event.taskerror e job2.data false])
  | WorkResult.success data =>
    if job.hasCallbacks then (s, [Event.executeResolved job.id data])
    else (s, [])

/-- The duplicate-URL commit of `doWork`: when `skipDuplicateUrls` and the
URL is defined, add it to `duplicateCheckUrls`. -/
def recordUrl {D : Type} (s : ClusterState D) (job : Job D) : ClusterState D :=
  if s.options.skipDuplicateUrls then
    match job.url with
    | some u => { s with duplicateCheckUrls := setInsert s.duplicateCheckUrls u }
    | none => s
  else s

/-- The domain-access commit of `doWork`: when `sameDomainDelay !== 0` and
the domain is defined, record the dispatch time. -/
def recordDomain {D : Type} (s : ClusterState D) (now : Int) (job : Job D) :
    ClusterState D :=
  if s.options.sameDomainDelay ≠ 0 then
    match job.domain with
    | some d => { s with lastDomainAccesses := mapSet d now s.lastDomainAccesses }
    | none => s
  else s

/-- The commit-and-run tail of `doWork` (from `jobQueue.remove(job)` on):
remove the job, record its URL/domain, `scheduleNextWork`, resolve the task
function (throwing `"No task function defined!"` when none), run
`worker.handle` — whose own throw is swallowed by the source, after which
reading `result.type` of `null` throws a `TypeError` — then dispatch the
result, resolve-and-clear the `waitForOneResolvers`, and request more work.
The job's `tries` increment per attempt is modelled from the spec (the
`Job` source is not in the corpus). -/
def commitAndRun {D R : Type} (s : ClusterState D) (now : Int) (env : StepEnv R)
    (job : Job D) : StepOut D R :=
  let s1 := { s with jobQueue := queueRemove job.id s.jobQueue }
  let s2 := recordUrl s1 job
  let s3 := recordDomain s2 now job
  let evs0 : List (Event D R) :=
    if env.hasFreeCapacity then [Event.workRequested] else []
  if !job.hasTaskFunction && !s.clusterTaskDefined then
    ⟨s3, evs0, some "No task function defined!"⟩
  else
    let job1 := { job with tries := job.tries + 1 }
    let evs1 := evs0 ++ [Event.dispatched job.id job.url]
    match env.handleOutcome with
    | Except.error _ =>
      ⟨s3, evs1, some "TypeError: cannot read type of null"⟩
    | Except.ok result =>
      let pr := processResult s3 now job1 result
      ⟨{ pr.1 with waitForOneResolvers := [] },
        evs1 ++ pr.2 ++
          s3.waitForOneResolvers.map (fun r => Event.waitForOneResolved r job.data) ++
          [Event.workRequested],
        none⟩

/-- `Cluster.doWork`, one iteration of the dispatch loop, as a transition on
the cluster state driven by the pool/worker oracle `env` at time `now`. -/
def doWork {D R : Type} (s : ClusterState D) (now : Int) (env : StepEnv R) :
    StepOut D R :=
  if s.jobQueue.length = 0 then
    if env.isAnyJobActive then ⟨s, [], none⟩
    else ⟨s, s.idleResolvers.map Event.idleResolved, none⟩
  else
    match queuePeek now s.jobQueue with
    | none => ⟨s, [], none⟩
    | some job =>
      if shouldSkipDuplicate s job then
        ⟨{ s with jobQueue := queueRemove job.id s.jobQueue },
          [Event.workRequested], none⟩
      else
        match domainDelayInfo s now job with
        | some t =>
          ⟨{ s with jobQueue :=
              queuePush (queueRemove job.id s.jobQueue) job (some t) },
            [Event.workRequested], none⟩
        | none =>
          if !env.canHandle then
            if env.canLaunchWorker then
              ⟨s, [Event.workerLaunched, Event.workRequested], none⟩
            else ⟨s, [], none⟩
          else if !env.getWorkerSome then ⟨s, [], none⟩
          else commitAndRun s now env job

/-- The `Cluster` fields read or written by `close()`.  Timer fields model
whether the corresponding handle is non-null (`clearInterval`/`clearTimeout`
do not null the fields; they only stop the timers, which the effect trace
records). -/
structure CloseState where
  isClosed : Bool
  monitoringSet : Bool
  displayExists : Bool
  idleResolvers : List Nat
deriving DecidableEq, Repr

/-- Observable effects of `Cluster.close()`. -/
inductive CloseEffect where
  | pollTimerCleared
  | throttleCleared
  | workersClosed
  | browserCloseAttempted
  | monitorTick
  | monitoringIntervalCleared
  | displayClosed
  | systemMonitorClosed
  | idleResolved (rid : Nat)
deriving DecidableEq, Repr

/-- `Cluster.close()` as a transition: set `isClosed`, clear the poll
interval and the work-call throttle, await `workers.close()`, attempt
`browser.close()` (errors swallowed), then — when monitoring is set — run a
final `monitor()` tick (which creates the display when absent) and clear the
monitoring interval, close the display when present, and close the system
monitor.  The body is not guarded by `isClosed` and never touches
`idleResolvers`. -/
def closeCluster (s : CloseState) : CloseState × List CloseEffect :=
  let s1 := { s with
    isClosed := true,
    displayExists := s.displayExists || s.monitoringSet }
  (s1,
    [CloseEffect.pollTimerCleared, CloseEffect.throttleCleared,
     CloseEffect.workersClosed, CloseEffect.browserCloseAttempted] ++
    (if s.monitoringSet then
      [CloseEffect.monitorTick, CloseEffect.monitoringIntervalCleared]
     else []) ++
    (if s.displayExists || s.monitoringSet then [CloseEffect.displayClosed]
     else []) ++
    [CloseEffect.systemMonitorClosed])

/-- One scheduled `doWork` invocation: the wall-clock time it observes and
the pool/worker oracle answering its external calls. -/
structure StepIn (R : Type) where
  now : Int
  env : StepEnv R

/-- A whole dispatch run: iterate `doWork` over a list of step inputs,
threading the state and concatenating the emitted events. -/
def runSteps {D R : Type} (s : ClusterState D) :
    List (StepIn R) → ClusterState D × List (Event D R)
  | [] => (s, [])
  | i :: rest =>
    let out := doWork s i.now i.env
    let tail := runSteps out.state rest
    (tail.1, out.events ++ tail.2)

/-- The URL strings of the jobs committed to workers in an event trace. -/
def dispatchedUrls {D R : Type} (evs : List (Event D R)) : List String :=
  evs.filterMap fun ev =>
    match ev with
    | Event.dispatched _ u => u
    | _ => none

/-- The execute-callback invocations attributed to job `jid` in an event
trace. -/
def callbackEvents {D R : Type} (jid : Nat) (evs : List (Event D R)) :
    List (Event D R) :=
  evs.filter fun ev =>
    match ev with
    | Event.executeResolved j _ => j == jid
    | Event.executeRejected j _ => j == jid
    | _ => false

/-- A provider whose `jobInstance` always fails and whose `repair` always
succeeds. -/
def envAllFail : HandleEnv Nat :=
  { jobInstance := fun _ => Except.error ⟨"boom"⟩
  , acquireRepair := fun _ => Except.ok ()
  , pageError := none
  , taskOutcome := Except.ok 0
  , closeOutcome := Except.ok ()
  , releaseRepair := Except.ok () }

/-- A provider whose first acquisition succeeds but whose
`jobInstance.close()` fails at release time, with a succeeding `repair`. -/
def envReleaseFail : HandleEnv Nat :=
  { jobInstance := fun _ => Except.ok ()
  , acquireRepair := fun _ => Except.ok ()
  , pageError := none
  , taskOutcome := Except.ok 7
  , closeOutcome := Except.error ⟨"close failed"⟩
  , releaseRepair := Except.ok () }

/-- A provider whose acquisition and task succeed but whose
`jobInstance.close()` fails at release time and whose release-time `repair`
also rejects. -/
def envRelBoth : HandleEnv Nat :=
  { jobInstance := fun _ => Except.ok ()
  , acquireRepair := fun _ => Except.ok ()
  , pageError := none
  , taskOutcome := Except.ok 7
  , closeOutcome := Except.error ⟨"close failed"⟩
  , releaseRepair := Except.error ⟨"repair failed"⟩ }

/-- A provider for which everything goes right: acquisition, task,
release. -/
def envAllOk : HandleEnv Nat :=
  { jobInstance := fun _ => Except.ok ()
  , acquireRepair := fun _ => Except.ok ()
  , pageError := none
  , taskOutcome := Except.ok 42
  , closeOutcome := Except.ok ()
  , releaseRepair := Except.ok () }

/-- Default options (`DEFAULT_OPTIONS` of the source, restricted to the
fields `doWork` consults). -/
def opts0 : ClusterOpts :=
  { retryLimit := 0, retryDelay := 0, skipDuplicateUrls := false,
    sameDomainDelay := 0 }

/-- A cluster with an empty queue and one pending `idle()` waiter. -/
def idleSt : ClusterState Nat :=
  { options := opts0, jobQueue := [], duplicateCheckUrls := [],
    lastDomainAccesses := [], idleResolvers := [7], waitForOneResolvers := [],
    errorCount := 0, clusterTaskDefined := true }

/-- A pool oracle reporting no active job. -/
def envIdle : StepEnv Nat :=
  { isAnyJobActive := false, canHandle := true, canLaunchWorker := true,
    getWorkerSome := true, hasFreeCapacity := true,
    handleOutcome := Except.ok (WorkResult.success 0) }

/-- A freshly launched, non-monitoring cluster with one pending `idle()`
waiter, about to be closed. -/
def closeSt : CloseState :=
  { isClosed := false, monitoringSet := false, displayExists := false,
    idleResolvers := [5] }

/-- An execute-enqueued job (callbacks present) with a per-job task. -/
def jobE : Job Nat :=
  { id := 1, data := 0, url := none, domain := none, hasCallbacks := true,
    hasTaskFunction := true, tries := 0, errors := [] }

/-- A cluster holding only the execute job. -/
def stE : ClusterState Nat :=
  { options := opts0, jobQueue := [⟨jobE, none⟩], duplicateCheckUrls := [],
    lastDomainAccesses := [], idleResolvers := [], waitForOneResolvers := [],
    errorCount := 0, clusterTaskDefined := true }

/-- A pool oracle whose worker returns an error `WorkResult`. -/
def envErrOutcome : StepEnv Nat :=
  { isAnyJobActive := true, canHandle := true, canLaunchWorker := true,
    getWorkerSome := true, hasFreeCapacity := false,
    handleOutcome := Except.ok (WorkResult.error ⟨"E"⟩) }

/-- A pool oracle whose worker returns a success `WorkResult`. -/
def envOkOutcome : StepEnv Nat :=
  { isAnyJobActive := true, canHandle := true, canLaunchWorker := true,
    getWorkerSome := true, hasFreeCapacity := false,
    handleOutcome := Except.ok (WorkResult.success 9) }

/-- A pool oracle whose worker throws instead of returning a result. -/
def envThrow : StepEnv Nat :=
  { isAnyJobActive := true, canHandle := true, canLaunchWorker := true,
    getWorkerSome := true, hasFreeCapacity := false,
    handleOutcome := Except.error ⟨"boom"⟩ }

/-- A queue-enqueued job (no callbacks) with a per-job task. -/
def jobQ : Job Nat :=
  { id := 2, data := 0, url := none, domain := none, hasCallbacks := false,
    hasTaskFunction := true, tries := 0, errors := [] }

/-- Options with retries enabled and a negative `retryDelay`. -/
def optsNeg : ClusterOpts :=
  { retryLimit := 5, retryDelay := -1, skipDuplicateUrls := false,
    sameDomainDelay := 0 }

/-- A cluster holding only the queue job under the negative-delay options. -/
def stQ : ClusterState Nat :=
  { options := optsNeg, jobQueue := [⟨jobQ, none⟩], duplicateCheckUrls := [],
    lastDomainAccesses := [], idleResolvers := [], waitForOneResolvers := [],
    errorCount := 0, clusterTaskDefined := true }

/-- Options enabling the duplicate-URL filter. -/
def optsSkip : ClusterOpts :=
  { retryLimit := 0, retryDelay := 0, skipDuplicateUrls := true,
    sameDomainDelay := 0 }

/-- A queue job with URL `"u1"`. -/
def jobU1 : Job Nat :=
  { id := 10, data := 0, url := some "u1", domain := none,
    hasCallbacks := false, hasTaskFunction := true, tries := 0, errors := [] }

/-- A second, distinct job with the same URL `"u1"`. -/
def jobU2 : Job Nat :=
  { id := 11, data := 1, url := some "u1", domain := none,
    hasCallbacks := false, hasTaskFunction := true, tries := 0, errors := [] }

/-- A deduplicating cluster with both same-URL jobs queued. -/
def stU : ClusterState Nat :=
  { options := optsSkip, jobQueue := [⟨jobU1, none⟩, ⟨jobU2, none⟩],
    duplicateCheckUrls := [], lastDomainAccesses := [], idleResolvers := [],
    waitForOneResolvers := [], errorCount := 0, clusterTaskDefined := true }

/-- A deduplicating cluster whose queued job's URL was already dispatched. -/
def stDup : ClusterState Nat :=
  { options := optsSkip, jobQueue := [⟨jobU2, none⟩],
    duplicateCheckUrls := ["u1"], lastDomainAccesses := [],
    idleResolvers := [], waitForOneResolvers := [], errorCount := 0,
    clusterTaskDefined := true }

/-- A three-step run: dispatch, duplicate-drop, idle check. -/
def insU : List (StepIn Nat) :=
  [⟨0, envOkOutcome⟩, ⟨1, envOkOutcome⟩, ⟨2, envOkOutcome⟩]

/-- Removing the job that was just appended restores the original list when
the job was not already active. -/
theorem spliceIndexOf_append_singleton {J : Type} [DecidableEq J]
    (l : List J) (a : J) (h : a ∉ l) : spliceIndexOf (l ++ [a]) a = l := by
  unfold spliceIndexOf
  rw [if_pos (by simp)]
  rw [List.erase_append_right _ h]
  simp

/-- C1 counterexample: when `provider.jobInstance` fails on every acquisition
attempt (repairs succeeding), `Worker.handle` does not return an error
`WorkResult` — it throws the error `"Unable to get browser page"` (the
`Except.error` outcome), contradicting the claim that `handle` never
throws. -/
theorem worker_handle_throws_on_exhaustion :
    (Worker.handle envAllFail ([] : List Nat) 0).1 =
      Except.error ⟨"Unable to get browser page"⟩ ∧
    ∀ w : WorkResult Nat,
      (Worker.handle envAllFail ([] : List Nat) 0).1 ≠ Except.ok w := by
  constructor
  · rfl
  · intro w h
    rw [show (Worker.handle envAllFail ([] : List Nat) 0).1 =
      Except.error ⟨"Unable to get browser page"⟩ from rfl] at h
    exact Except.noConfusion h

/-- C1 (amended): when `provider.jobInstance` fails on all of the
`BROWSER_INSTANCE_TRIES = 10` acquisition attempts and each interleaved
`provider.repair()` succeeds, `Worker.handle` throws an `Error` whose message
is `"Unable to get browser page"` (rather than returning an error
`WorkResult`), having called `repair` ten times — once after each failed
attempt — and it leaves the job in `activeJobs`. -/
theorem worker_handle_exhausted_acquire_throws {R J : Type} [DecidableEq J]
    (env : HandleEnv R) (active : List J) (job : J)
    (hfail : ∀ i, i < BROWSER_INSTANCE_TRIES →
      ∃ e, env.jobInstance i = Except.error e)
    (hrep : ∀ i, i < BROWSER_INSTANCE_TRIES →
      env.acquireRepair i = Except.ok ()) :
    (Worker.handle env active job).1 =
      Except.error ⟨"Unable to get browser page"⟩ ∧
    repairCount (Worker.handle env active job).2.2 = BROWSER_INSTANCE_TRIES ∧
    (Worker.handle env active job).2.1 = active ++ [job] := by
  obtain ⟨e0, h0⟩ := hfail 0 (by decide)
  obtain ⟨e1, h1⟩ := hfail 1 (by decide)
  obtain ⟨e2, h2⟩ := hfail 2 (by decide)
  obtain ⟨e3, h3⟩ := hfail 3 (by decide)
  obtain ⟨e4, h4⟩ := hfail 4 (by decide)
  obtain ⟨e5, h5⟩ := hfail 5 (by decide)
  obtain ⟨e6, h6⟩ := hfail 6 (by decide)
  obtain ⟨e7, h7⟩ := hfail 7 (by decide)
  obtain ⟨e8, h8⟩ := hfail 8 (by decide)
  obtain ⟨e9, h9⟩ := hfail 9 (by decide)
  have hr0 := hrep 0 (by decide)
  have hr1 := hrep 1 (by decide)
  have hr2 := hrep 2 (by decide)
  have hr3 := hrep 3 (by decide)
  have hr4 := hrep 4 (by decide)
  have hr5 := hrep 5 (by decide)
  have hr6 := hrep 6 (by decide)
  have hr7 := hrep 7 (by decide)
  have hr8 := hrep 8 (by decide)
  have hr9 := hrep 9 (by decide)
  have hacq : acquireLoop env 0 BROWSER_INSTANCE_TRIES =
      (Except.error ⟨"Unable to get browser page"⟩,
       [WEffect.jobInstanceCalled 0, WEffect.repairCalled,
        WEffect.jobInstanceCalled 1, WEffect.repairCalled,
        WEffect.jobInstanceCalled 2, WEffect.repairCalled,
        WEffect.jobInstanceCalled 3, WEffect.repairCalled,
        WEffect.jobInstanceCalled 4, WEffect.repairCalled,
        WEffect.jobInstanceCalled 5, WEffect.repairCalled,
        WEffect.jobInstanceCalled 6, WEffect.repairCalled,
        WEffect.jobInstanceCalled 7, WEffect.repairCalled,
        WEffect.jobInstanceCalled 8, WEffect.repairCalled,
        WEffect.jobInstanceCalled 9, WEffect.repairCalled]) := by
    simp [acquireLoop, BROWSER_INSTANCE_TRIES,
      h0, h1, h2, h3, h4, h5, h6, h7, h8, h9,
      hr0, hr1, hr2, hr3, hr4, hr5, hr6, hr7, hr8, hr9]
  have hh : Worker.handle env active job =
      (Except.error ⟨"Unable to get browser page"⟩, active ++ [job],
       [WEffect.jobInstanceCalled 0, WEffect.repairCalled,
        WEffect.jobInstanceCalled 1, WEffect.repairCalled,
        WEffect.jobInstanceCalled 2, WEffect.repairCalled,
        WEffect.jobInstanceCalled 3, WEffect.repairCalled,
        WEffect.jobInstanceCalled 4, WEffect.repairCalled,
        WEffect.jobInstanceCalled 5, WEffect.repairCalled,
        WEffect.jobInstanceCalled 6, WEffect.repairCalled,
        WEffect.jobInstanceCalled 7, WEffect.repairCalled,
        WEffect.jobInstanceCalled 8, WEffect.repairCalled,
        WEffect.jobInstanceCalled 9, WEffect.repairCalled]) := by
    simp [Worker.handle, hacq]
  rw [hh]
  exact ⟨rfl, rfl, rfl⟩

/-- C1 (amended) witness: the amended theorem instantiated at a concrete
always-failing provider. -/
theorem worker_handle_exhausted_acquire_throws_witness :
    (Worker.handle envAllFail ([] : List Nat) 1).1 =
      Except.error ⟨"Unable to get browser page"⟩ ∧
    repairCount (Worker.handle envAllFail ([] : List Nat) 1).2.2 =
      BROWSER_INSTANCE_TRIES ∧
    (Worker.handle envAllFail ([] : List Nat) 1).2.1 = [] ++ [1] :=
  worker_handle_exhausted_acquire_throws envAllFail [] 1
    (fun _ _ => ⟨⟨"boom"⟩, rfl⟩) (fun _ _ => rfl)

/-- C3 counterexample: the provider defines `canHandle` and it returns
`false`, yet `Worker.canHandle` returns `true` because the source computes
`provider.canHandle(data) || activeJobs.length === 0` — it does not return
exactly the provider's boolean. -/
theorem worker_canHandle_not_pure_delegation :
    Worker.canHandle (some (fun _ : Unit => false)) ([] : List Nat) () = true ∧
    (fun _ : Unit => false) () = false :=
  ⟨rfl, rfl⟩

/-- C3 (amended): when the provider defines `canHandle`, `Worker.canHandle`
returns the disjunction of the provider's boolean with
`activeJobs.length === 0`; only when the provider leaves `canHandle`
undefined does it return `activeJobs.length === 0` alone. -/
theorem worker_canHandle_characterization {D J : Type} (f : D → Bool)
    (active : List J) (d : D) :
    Worker.canHandle (some f) active d = (f d || active.length == 0) ∧
    Worker.canHandle (none : Option (D → Bool)) active d =
      (active.length == 0) := by
  refine ⟨rfl, ?_⟩
  unfold Worker.canHandle
  simp

/-- C9 counterexample: a call in which `jobInstance.close()` throws during
release and the release-time `repair()` also rejects: although the task
completed successfully (returning `7`), execution does not continue —
`Worker.handle` throws the repair error instead of returning the success
`WorkResult`, and the job is left in `activeJobs`. -/
theorem worker_handle_release_repair_failure_throws :
    envRelBoth.closeOutcome = Except.error ⟨"close failed"⟩ ∧
    envRelBoth.taskOutcome = Except.ok 7 ∧
    (Worker.handle envRelBoth ([] : List Nat) 0).1 =
      Except.error ⟨"repair failed"⟩ ∧
    (∀ w : WorkResult Nat,
      (Worker.handle envRelBoth ([] : List Nat) 0).1 ≠ Except.ok w) ∧
    (Worker.handle envRelBoth ([] : List Nat) 0).2.1 = [0] := by
  refine ⟨rfl, rfl, rfl, ?_, rfl⟩
  intro w h
  rw [show (Worker.handle envRelBoth ([] : List Nat) 0).1 =
    Except.error ⟨"repair failed"⟩ from rfl] at h
  exact Except.noConfusion h

/-- C9 (amended): when `jobInstance.close()` throws during release,
`provider.repair()` is invoked (it appears in the provider-call trace in
both of the following cases); when that repair succeeds, execution continues
and the returned `WorkResult` is exactly what the captured `errorState`
dictates — an error result for a task throw or a captured page error, and
otherwise a success result carrying the task's return value — with the job
spliced out of `activeJobs`, all unaffected by the release failure; but when
the repair itself rejects, `Worker.handle` throws that repair error and the
job is left in `activeJobs`. -/
theorem worker_handle_release_failure_behavior {R J : Type}
    [DecidableEq J] (env : HandleEnv R) (active : List J) (job : J)
    (c : JSError)
    (hacq : (acquireLoop env 0 BROWSER_INSTANCE_TRIES).1 = Except.ok ())
    (hclose : env.closeOutcome = Except.error c) :
    WEffect.repairCalled ∈ (Worker.handle env active job).2.2 ∧
    (env.releaseRepair = Except.ok () →
      (Worker.handle env active job).1 =
        Except.ok
          (match env.taskOutcome, env.pageError with
           | Except.error e, _ => WorkResult.error e
           | Except.ok _, some e => WorkResult.error e
           | Except.ok r, none => WorkResult.success r) ∧
      (Worker.handle env active job).2.1 =
        spliceIndexOf (active ++ [job]) job) ∧
    (∀ e, env.releaseRepair = Except.error e →
      (Worker.handle env active job).1 = Except.error e ∧
      (Worker.handle env active job).2.1 = active ++ [job]) := by
  refine ⟨?_, ?_, ?_⟩
  · unfold Worker.handle
    rcases hr : env.releaseRepair with re | ru <;>
      rcases ht : env.taskOutcome with te | tr <;>
        rcases hp : env.pageError with _ | pe <;>
          simp [hacq, hclose, hr, ht, hp]
  · intro hr
    unfold Worker.handle
    rw [hclose, hr]
    rcases ht : env.taskOutcome with te | tr <;>
      rcases hp : env.pageError with _ | pe <;>
        simp [hacq, ht, hp]
  · intro e hr
    unfold Worker.handle
    rw [hclose, hr]
    simp [hacq]

/-- C9 (amended) witness: the release-failure theorem instantiated at two
concrete environments — one whose release-time repair succeeds (the task's
value `7` is still returned as a success result) and one whose repair also
rejects (`handle` throws the repair error, job left active). -/
theorem worker_handle_release_failure_behavior_witness :
    WEffect.repairCalled ∈ (Worker.handle envReleaseFail ([] : List Nat) 0).2.2 ∧
    ((Worker.handle envReleaseFail ([] : List Nat) 0).1 =
      Except.ok
        (match envReleaseFail.taskOutcome, envReleaseFail.pageError with
         | Except.error e, _ => WorkResult.error e
         | Except.ok _, some e => WorkResult.error e
         | Except.ok r, none => WorkResult.success r) ∧
     (Worker.handle envReleaseFail ([] : List Nat) 0).2.1 =
       spliceIndexOf ([] ++ [0]) 0) ∧
    ((Worker.handle envRelBoth ([] : List Nat) 0).1 =
      Except.error ⟨"repair failed"⟩ ∧
     (Worker.handle envRelBoth ([] : List Nat) 0).2.1 = [] ++ [0]) :=
  ⟨(worker_handle_release_failure_behavior envReleaseFail [] 0
      ⟨"close failed"⟩ rfl rfl).1,
   (worker_handle_release_failure_behavior envReleaseFail [] 0
      ⟨"close failed"⟩ rfl rfl).2.1 rfl,
   (worker_handle_release_failure_behavior envRelBoth [] 0
      ⟨"close failed"⟩ rfl rfl).2.2 ⟨"repair failed"⟩ rfl⟩

/-- C10: whenever `Worker.handle` returns a `WorkResult` (success or error)
for a job that was not already active, the worker's `activeJobs` after the
call equals its value before the call — the job is appended on entry and
spliced out before either return — and hence `Worker.isIdle` is unchanged. -/
theorem worker_handle_preserves_activeJobs {R J : Type} [DecidableEq J]
    (env : HandleEnv R) (active : List J) (job : J) (w : WorkResult R)
    (hret : (Worker.handle env active job).1 = Except.ok w)
    (hnotin : job ∉ active) :
    (Worker.handle env active job).2.1 = active ∧
    Worker.isIdle (Worker.handle env active job).2.1 = Worker.isIdle active := by
  have hsp := spliceIndexOf_append_singleton active job hnotin
  rcases hA : (acquireLoop env 0 BROWSER_INSTANCE_TRIES).1 with e | u
  · simp [Worker.handle, hA] at hret
  · rcases hc : env.closeOutcome with ce | cu
    · rcases hr : env.releaseRepair with re | ru
      · simp [Worker.handle, hA, hc, hr] at hret
      · rcases ht : env.taskOutcome with te | tr <;>
          rcases hp : env.pageError with _ | pe <;>
            simp [Worker.handle, hA, hc, hr, ht, hp, hsp]
    · rcases ht : env.taskOutcome with te | tr <;>
        rcases hp : env.pageError with _ | pe <;>
          simp [Worker.handle, hA, hc, ht, hp, hsp]

/-- C10 witness: the frame theorem instantiated at a concrete successful
run starting from two other active jobs. -/
theorem worker_handle_preserves_activeJobs_witness :
    (Worker.handle envAllOk ([1, 2] : List Nat) 3).2.1 = [1, 2] ∧
    Worker.isIdle (Worker.handle envAllOk ([1, 2] : List Nat) 3).2.1 =
      Worker.isIdle ([1, 2] : List Nat) :=
  worker_handle_preserves_activeJobs envAllOk [1, 2] 3
    (WorkResult.success 42) rfl (by decide)

/-- `processResult` never emits an idle-resolution event. -/
theorem processResult_no_idleResolved {D R : Type} (s : ClusterState D)
    (now : Int) (job : Job D) (result : WorkResult R) (rid : Nat) :
    Event.idleResolved rid ∉ (processResult s now job result).2 := by
  rcases result with d | e
  · simp only [processResult]
    split <;> simp
  · simp only [processResult]
    split
    · simp
    · split <;> simp

/-- `commitAndRun` never emits an idle-resolution event. -/
theorem commitAndRun_no_idleResolved {D R : Type} (s : ClusterState D)
    (now : Int) (env : StepEnv R) (job : Job D) (rid : Nat) :
    Event.idleResolved rid ∉ (commitAndRun s now env job).events := by
  unfold commitAndRun
  rcases henv : env.handleOutcome with e | result <;>
    by_cases htf : (!job.hasTaskFunction && !s.clusterTaskDefined) = true <;>
      by_cases hfc : env.hasFreeCapacity = true <;>
        simp [henv, htf, hfc, processResult_no_idleResolved,
          eq_false_of_ne_true, List.mem_append]

/-- C4 counterexample: a dispatch iteration that finds the queue empty and no
active job resolves the pending idle waiter but does not clear the waiter
list — `idleResolvers` still holds the waiter afterwards, contradicting the
claim that the list is cleared. -/
theorem doWork_idle_branch_does_not_clear_waiters :
    Event.idleResolved 7 ∈ (doWork idleSt 0 envIdle).events ∧
    (doWork idleSt 0 envIdle).state.idleResolvers = [7] := by decide

/-- C4 (amended): a dispatch iteration that finds the job queue empty and a
pool with no active job resolves every pending idle waiter and leaves the
state — including the waiter list — unchanged; and idle waiters are resolved
only by such iterations: whenever `doWork` emits an idle-resolution event,
the queue was empty, the pool reported no active job, and the resolved
waiter was pending. -/
theorem doWork_idle_resolution_characterization {D R : Type} :
    (∀ (s : ClusterState D) (now : Int) (env : StepEnv R),
      s.jobQueue = [] → env.isAnyJobActive = false →
      (doWork s now env).events = s.idleResolvers.map Event.idleResolved ∧
      (doWork s now env).state = s) ∧
    (∀ (s : ClusterState D) (now : Int) (env : StepEnv R) (rid : Nat),
      Event.idleResolved rid ∈ (doWork s now env).events →
      s.jobQueue.length = 0 ∧ env.isAnyJobActive = false ∧
      rid ∈ s.idleResolvers) := by
  constructor
  · intro s now env hq ha
    simp [doWork, hq, ha]
  · intro s now env rid hmem
    by_cases hq : s.jobQueue.length = 0
    · rcases ha : env.isAnyJobActive with _ | _
      · simp only [doWork, hq, ha, if_pos, if_true, if_false] at hmem
        simp at hmem
        exact ⟨hq, rfl, hmem⟩
      · simp [doWork, hq, ha] at hmem
    · exfalso
      simp only [doWork, hq, if_false] at hmem
      rcases hpk : queuePeek now s.jobQueue with _ | job
      · simp [hpk] at hmem
      · simp only [hpk] at hmem
        by_cases hdup : shouldSkipDuplicate s job = true
        · simp [hdup] at hmem
        · rcases hdd : domainDelayInfo s now job with _ | t
          · by_cases hch : env.canHandle = true
            · by_cases hgw : env.getWorkerSome = true
              · simp [hdup, hdd, hch, hgw] at hmem
                exact commitAndRun_no_idleResolved s now env job rid hmem
              · simp [hdup, hdd, hch, hgw] at hmem
            · by_cases hcl : env.canLaunchWorker = true <;>
                simp [hdup, hdd, hch, hcl] at hmem
          · simp [hdup, hdd] at hmem

/-- C4 (amended) witness: the characterization instantiated at the concrete
idle cluster above. -/
theorem doWork_idle_resolution_characterization_witness :
    ((doWork idleSt 5 envIdle).events =
        idleSt.idleResolvers.map Event.idleResolved ∧
      (doWork idleSt 5 envIdle).state = idleSt) ∧
    (idleSt.jobQueue.length = 0 ∧ envIdle.isAnyJobActive = false ∧
      7 ∈ idleSt.idleResolvers) :=
  ⟨doWork_idle_resolution_characterization.1 idleSt 5 envIdle rfl rfl,
   doWork_idle_resolution_characterization.2 idleSt 5 envIdle 7 (by decide)⟩

/-- C5 counterexample: `close()` on a cluster with a pending idle waiter
emits no idle-resolution effect and leaves the waiter pending, and a second
`close()` call re-runs the full shutdown sequence (the pool is closed again)
instead of being a no-op — contradicting the resolve-idleWaiters and
idempotence parts of the claim. -/
theorem closeCluster_not_resolving_not_idempotent :
    (closeCluster closeSt).2 =
      [CloseEffect.pollTimerCleared, CloseEffect.throttleCleared,
       CloseEffect.workersClosed, CloseEffect.browserCloseAttempted,
       CloseEffect.systemMonitorClosed] ∧
    CloseEffect.idleResolved 5 ∉ (closeCluster closeSt).2 ∧
    (closeCluster closeSt).1.idleResolvers = [5] ∧
    CloseEffect.workersClosed ∈ (closeCluster (closeCluster closeSt).1).2 ∧
    CloseEffect.browserCloseAttempted ∈
      (closeCluster (closeCluster closeSt).1).2 := by decide

/-- C5 (amended): `close()` sets the closed flag, cancels the poll timer and
any pending dispatch throttle, awaits pool close and attempts provider close
(swallowing its errors); but it never resolves pending idle waiters — the
waiter list is untouched and no idle-resolution effect is emitted — and it
is not guarded by the closed flag: a second call repeats the pool- and
provider-close effects rather than being a no-op. -/
theorem closeCluster_characterization (s : CloseState) :
    (closeCluster s).1.isClosed = true ∧
    CloseEffect.pollTimerCleared ∈ (closeCluster s).2 ∧
    CloseEffect.throttleCleared ∈ (closeCluster s).2 ∧
    CloseEffect.workersClosed ∈ (closeCluster s).2 ∧
    CloseEffect.browserCloseAttempted ∈ (closeCluster s).2 ∧
    (closeCluster s).1.idleResolvers = s.idleResolvers ∧
    (∀ rid, CloseEffect.idleResolved rid ∉ (closeCluster s).2) ∧
    CloseEffect.workersClosed ∈ (closeCluster (closeCluster s).1).2 ∧
    CloseEffect.browserCloseAttempted ∈
      (closeCluster (closeCluster s).1).2 := by
  unfold closeCluster
  refine ⟨rfl, by simp, by simp, by simp, by simp, rfl, ?_, by simp, by simp⟩
  intro rid
  simp only [List.mem_append]
  rintro ((h | h) | h)
  · simp at h
  · revert h
    split <;> simp
  · revert h
    rcases h2 : (s.displayExists || s.monitoringSet) with _ | _ <;> simp

/-- `recordUrl` only touches the duplicate-URL set. -/
@[simp] theorem recordUrl_options {D : Type} (s : ClusterState D) (job : Job D) :
    (recordUrl s job).options = s.options := by
  unfold recordUrl
  split
  · split <;> simp
  · simp

/-- `recordUrl` only touches the duplicate-URL set. -/
@[simp] theorem recordUrl_jobQueue {D : Type} (s : ClusterState D) (job : Job D) :
    (recordUrl s job).jobQueue = s.jobQueue := by
  unfold recordUrl
  split
  · split <;> simp
  · simp

/-- `recordUrl` only touches the duplicate-URL set. -/
@[simp] theorem recordUrl_errorCount {D : Type} (s : ClusterState D) (job : Job D) :
    (recordUrl s job).errorCount = s.errorCount := by
  unfold recordUrl
  split
  · split <;> simp
  · simp

/-- `recordUrl` only touches the duplicate-URL set. -/
@[simp] theorem recordUrl_idleResolvers {D : Type} (s : ClusterState D) (job : Job D) :
    (recordUrl s job).idleResolvers = s.idleResolvers := by
  unfold recordUrl
  split
  · split <;> simp
  · simp

/-- `recordUrl` only touches the duplicate-URL set. -/
@[simp] theorem recordUrl_waitForOneResolvers {D : Type} (s : ClusterState D) (job : Job D) :
    (recordUrl s job).waitForOneResolvers = s.waitForOneResolvers := by
  unfold recordUrl
  split
  · split <;> simp
  · simp

/-- `recordUrl` only touches the duplicate-URL set. -/
@[simp] theorem recordUrl_clusterTaskDefined {D : Type} (s : ClusterState D) (job : Job D) :
    (recordUrl s job).clusterTaskDefined = s.clusterTaskDefined := by
  unfold recordUrl
  split
  · split <;> simp
  · simp

/-- `recordUrl` only touches the duplicate-URL set. -/
@[simp] theorem recordUrl_lastDomainAccesses {D : Type} (s : ClusterState D) (job : Job D) :
    (recordUrl s job).lastDomainAccesses = s.lastDomainAccesses := by
  unfold recordUrl
  split
  · split <;> simp
  · simp

/-- `recordDomain` only touches the domain-access map. -/
@[simp] theorem recordDomain_options {D : Type} (s : ClusterState D) (now : Int)
    (job : Job D) :
    (recordDomain s now job).options = s.options := by
  unfold recordDomain
  split
  · split <;> simp
  · simp

/-- `recordDomain` only touches the domain-access map. -/
@[simp] theorem recordDomain_jobQueue {D : Type} (s : ClusterState D) (now : Int)
    (job : Job D) :
    (recordDomain s now job).jobQueue = s.jobQueue := by
  unfold recordDomain
  split
  · split <;> simp
  · simp

/-- `recordDomain` only touches the domain-access map. -/
@[simp] theorem recordDomain_errorCount {D : Type} (s : ClusterState D) (now : Int)
    (job : Job D) :
    (recordDomain s now job).errorCount = s.errorCount := by
  unfold recordDomain
  split
  · split <;> simp
  · simp

/-- `recordDomain` only touches the domain-access map. -/
@[simp] theorem recordDomain_idleResolvers {D : Type} (s : ClusterState D) (now : Int)
    (job : Job D) :
    (recordDomain s now job).idleResolvers = s.idleResolvers := by
  unfold recordDomain
  split
  · split <;> simp
  · simp

/-- `recordDomain` only touches the domain-access map. -/
@[simp] theorem recordDomain_waitForOneResolvers {D : Type} (s : ClusterState D) (now : Int)
    (job : Job D) :
    (recordDomain s now job).waitForOneResolvers = s.waitForOneResolvers := by
  unfold recordDomain
  split
  · split <;> simp
  · simp

/-- `recordDomain` only touches the domain-access map. -/
@[simp] theorem recordDomain_clusterTaskDefined {D : Type} (s : ClusterState D) (now : Int)
    (job : Job D) :
    (recordDomain s now job).clusterTaskDefined = s.clusterTaskDefined := by
  unfold recordDomain
  split
  · split <;> simp
  · simp

/-- `recordDomain` only touches the domain-access map. -/
@[simp] theorem recordDomain_duplicateCheckUrls {D : Type} (s : ClusterState D) (now : Int)
    (job : Job D) :
    (recordDomain s now job).duplicateCheckUrls = s.duplicateCheckUrls := by
  unfold recordDomain
  split
  · split <;> simp
  · simp

/-- When the peeked job passes every admission filter and the pool offers a
worker, the `doWork` iteration is exactly its commit-and-run tail. -/
theorem doWork_commit {D R : Type} (s : ClusterState D) (now : Int)
    (env : StepEnv R) (job : Job D)
    (hne : s.jobQueue.length ≠ 0)
    (hpeek : queuePeek now s.jobQueue = some job)
    (hdup : shouldSkipDuplicate s job = false)
    (hdom : domainDelayInfo s now job = none)
    (hch : env.canHandle = true)
    (hgw : env.getWorkerSome = true) :
    doWork s now env = commitAndRun s now env job := by
  simp [doWork, hne, hpeek, hdup, hdom, hch, hgw]

/-- `callbackEvents` distributes over concatenation. -/
theorem callbackEvents_append {D R : Type} (jid : Nat)
    (a b : List (Event D R)) :
    callbackEvents jid (a ++ b) =
      callbackEvents jid a ++ callbackEvents jid b := by
  simp [callbackEvents, List.filter_append]

/-- Wait-for-one resolutions contribute no callback events. -/
theorem callbackEvents_waitMap {D R : Type} (jid : Nat) (l : List Nat)
    (d : D) :
    callbackEvents jid
      ((l.map fun r => Event.waitForOneResolved r d : List (Event D R))) =
      [] := by
  induction l with
  | nil => rfl
  | cons x xs ih => simp [callbackEvents] at ih ⊢

/-- Non-callback events are dropped by `callbackEvents`. -/
@[simp] theorem callbackEvents_cons_workRequested {D R : Type} (jid : Nat)
    (l : List (Event D R)) :
    callbackEvents jid (Event.workRequested :: l) = callbackEvents jid l := rfl

/-- Non-callback events are dropped by `callbackEvents`. -/
@[simp] theorem callbackEvents_cons_workerLaunched {D R : Type} (jid : Nat)
    (l : List (Event D R)) :
    callbackEvents jid (Event.workerLaunched :: l) = callbackEvents jid l := rfl

/-- Non-callback events are dropped by `callbackEvents`. -/
@[simp] theorem callbackEvents_cons_dispatched {D R : Type} (jid j : Nat)
    (u : Option String) (l : List (Event D R)) :
    callbackEvents jid (Event.dispatched j u :: l) = callbackEvents jid l := rfl

/-- Non-callback events are dropped by `callbackEvents`. -/
@[simp] theorem callbackEvents_cons_idleResolved {D R : Type} (jid r : Nat)
    (l : List (Event D R)) :
    callbackEvents jid (Event.idleResolved r :: l) = callbackEvents jid l := rfl

/-- Non-callback events are dropped by `callbackEvents`. -/
@[simp] theorem callbackEvents_cons_waitResolved {D R : Type} (jid r : Nat)
    (d : D) (l : List (Event D R)) :
    callbackEvents jid (Event.waitForOneResolved r d :: l) =
      callbackEvents jid l := rfl

/-- Non-callback events are dropped by `callbackEvents`. -/
@[simp] theorem callbackEvents_cons_taskerror {D R : Type} (jid : Nat)
    (e : JSError) (d : D) (w : Bool) (l : List (Event D R)) :
    callbackEvents jid (Event.taskerror e d w :: l) = callbackEvents jid l := rfl

/-- A resolution attributed to the filtered job is kept. -/
@[simp] theorem callbackEvents_cons_executeResolved_self {D R : Type}
    (j : Nat) (d : R) (l : List (Event D R)) :
    callbackEvents j (Event.executeResolved j d :: l) =
      Event.executeResolved j d :: callbackEvents j l := by
  simp [callbackEvents]

/-- A rejection attributed to the filtered job is kept. -/
@[simp] theorem callbackEvents_cons_executeRejected_self {D R : Type}
    (j : Nat) (e : JSError) (l : List (Event D R)) :
    callbackEvents j (Event.executeRejected j e :: l) =
      Event.executeRejected j e :: callbackEvents j l := by
  simp [callbackEvents]

/-- `callbackEvents` of the empty trace. -/
@[simp] theorem callbackEvents_nil {D R : Type} (jid : Nat) :
    callbackEvents (D := D) (R := R) jid [] = [] := rfl

/-- C6: a job carrying execute callbacks whose attempt ends in an error
result causes exactly one callback invocation — a rejection with that error
— increments `errorCount` by one, and is not re-enqueued (the resulting
queue is the original queue with the job removed), regardless of the
configured retry limit; the iteration completes without throwing. -/
theorem doWork_execute_error_rejects_once {D R : Type} (s : ClusterState D)
    (now : Int) (env : StepEnv R) (job : Job D) (e : JSError)
    (hne : s.jobQueue.length ≠ 0)
    (hpeek : queuePeek now s.jobQueue = some job)
    (hdup : shouldSkipDuplicate s job = false)
    (hdom : domainDelayInfo s now job = none)
    (hch : env.canHandle = true)
    (hgw : env.getWorkerSome = true)
    (htf : job.hasTaskFunction = true)
    (hcb : job.hasCallbacks = true)
    (hres : env.handleOutcome = Except.ok (WorkResult.error e)) :
    callbackEvents job.id (doWork s now env).events =
      [Event.executeRejected job.id e] ∧
    (doWork s now env).state.errorCount = s.errorCount + 1 ∧
    (doWork s now env).state.jobQueue = queueRemove job.id s.jobQueue ∧
    (doWork s now env).crashed = none := by
  rw [doWork_commit s now env job hne hpeek hdup hdom hch hgw]
  unfold commitAndRun
  rw [hres]
  simp only [htf, Bool.not_true, Bool.false_and, Bool.false_eq_true, if_false]
  unfold processResult
  simp only [hcb, if_true]
  refine ⟨?_, ?_, ?_, by trivial⟩
  · simp [apply_ite (callbackEvents job.id), callbackEvents_append,
      callbackEvents_waitMap]
  · simp
  · simp

/-- C6 witness: the execute-error theorem instantiated at a concrete execute
job and error outcome. -/
theorem doWork_execute_error_rejects_once_witness :
    callbackEvents jobE.id (doWork stE 0 envErrOutcome).events =
      [Event.executeRejected jobE.id ⟨"E"⟩] ∧
    (doWork stE 0 envErrOutcome).state.errorCount = stE.errorCount + 1 ∧
    (doWork stE 0 envErrOutcome).state.jobQueue =
      queueRemove jobE.id stE.jobQueue ∧
    (doWork stE 0 envErrOutcome).crashed = none :=
  doWork_execute_error_rejects_once stE 0 envErrOutcome jobE ⟨"E"⟩
    (by decide) rfl rfl rfl rfl rfl rfl rfl rfl

/-- C2 counterexample: when `worker.handle` throws, `doWork` swallows the
error and then crashes with a `TypeError` reading `result.type` of `null`;
the execute job was dispatched but neither `resolve` nor `reject` is ever
invoked, so the execute promise never settles — the promise does not resolve
or reject exactly once. -/
theorem doWork_swallowed_handle_throw_never_settles :
    Event.dispatched 1 none ∈ (doWork stE 0 envThrow).events ∧
    callbackEvents 1 (doWork stE 0 envThrow).events = [] ∧
    (doWork stE 0 envThrow).crashed =
      some "TypeError: cannot read type of null" ∧
    (doWork stE 0 envThrow).state.jobQueue = [] := by decide

/-- C2 (amended): provided `worker.handle` returns a `WorkResult` (it can
instead throw — see C1 — in which case `doWork` crashes on `result.type`
before invoking any callback and the promise never settles), the dispatch
loop invokes exactly one callback for an execute job: `resolve(data)` on a
success result and `reject(error)` on an error result, and the job is
removed from the queue and never re-pushed, so neither callback can be
invoked a second time. -/
theorem doWork_execute_settles_exactly_once {D R : Type} (s : ClusterState D)
    (now : Int) (env : StepEnv R) (job : Job D) (r : WorkResult R)
    (hne : s.jobQueue.length ≠ 0)
    (hpeek : queuePeek now s.jobQueue = some job)
    (hdup : shouldSkipDuplicate s job = false)
    (hdom : domainDelayInfo s now job = none)
    (hch : env.canHandle = true)
    (hgw : env.getWorkerSome = true)
    (htf : job.hasTaskFunction = true)
    (hcb : job.hasCallbacks = true)
    (hres : env.handleOutcome = Except.ok r) :
    callbackEvents job.id (doWork s now env).events =
      [match r with
       | WorkResult.success d => Event.executeResolved job.id d
       | WorkResult.error e => Event.executeRejected job.id e] ∧
    (doWork s now env).state.jobQueue = queueRemove job.id s.jobQueue ∧
    (doWork s now env).crashed = none := by
  rw [doWork_commit s now env job hne hpeek hdup hdom hch hgw]
  unfold commitAndRun
  simp only [hres]
  simp only [htf, Bool.not_true, Bool.false_and, Bool.false_eq_true, if_false]
  rcases r with d | e <;>
    unfold processResult <;>
      simp only [hcb, if_true] <;>
        refine ⟨?_, ?_, by trivial⟩
  · simp [apply_ite (callbackEvents job.id), callbackEvents_append,
      callbackEvents_waitMap]
  · simp
  · simp [apply_ite (callbackEvents job.id), callbackEvents_append,
      callbackEvents_waitMap]
  · simp

/-- C2 (amended) witness: the settlement theorem instantiated at a concrete
execute job with a success outcome. -/
theorem doWork_execute_settles_exactly_once_witness :
    callbackEvents jobE.id (doWork stE 3 envOkOutcome).events =
      [match (WorkResult.success 9 : WorkResult Nat) with
       | WorkResult.success d => Event.executeResolved jobE.id d
       | WorkResult.error e => Event.executeRejected jobE.id e] ∧
    (doWork stE 3 envOkOutcome).state.jobQueue =
      queueRemove jobE.id stE.jobQueue ∧
    (doWork stE 3 envOkOutcome).crashed = none :=
  doWork_execute_settles_exactly_once stE 3 envOkOutcome jobE
    (WorkResult.success 9)
    (by decide) rfl rfl rfl rfl rfl rfl rfl rfl

/-- C7 counterexample: with `retryDelay = -1` (not `> 0`, so the claim says
the retry is re-pushed with no delay), the code re-pushes the failed job with
`delayUntil = now + retryDelay` because its test is `retryDelay !== 0`, not
`retryDelay > 0`: at `now = 100` the re-queued entry carries
`delayUntil = some 99`, not `none`. -/
theorem doWork_retry_negative_delay_still_delays :
    stQ.options.retryDelay < 0 ∧
    (doWork stQ 100 envErrOutcome).state.jobQueue =
      [⟨{ jobQ with tries := 1, errors := [⟨"E"⟩] }, some 99⟩] := by decide

/-- C7 (amended): for a job without execute callbacks whose attempt ends in
an error result, the error is appended to `job.errors` and a `taskerror`
event is emitted with `willRetry = (tries ≤ retryLimit)` for the updated try
counter; if `willRetry` holds the job is re-pushed with
`delayUntil = now + retryDelay` when `retryDelay ≠ 0` (including negative
values) and with no delay when `retryDelay = 0`, leaving `errorCount`
unchanged; if `willRetry` fails the job is not re-pushed and `errorCount`
increases by one. -/
theorem doWork_queue_error_retry_behavior {D R : Type} (s : ClusterState D)
    (now : Int) (env : StepEnv R) (job : Job D) (e : JSError)
    (hne : s.jobQueue.length ≠ 0)
    (hpeek : queuePeek now s.jobQueue = some job)
    (hdup : shouldSkipDuplicate s job = false)
    (hdom : domainDelayInfo s now job = none)
    (hch : env.canHandle = true)
    (hgw : env.getWorkerSome = true)
    (htf : job.hasTaskFunction = true)
    (hcb : job.hasCallbacks = false)
    (hres : env.handleOutcome = Except.ok (WorkResult.error e)) :
    (job.tries + 1 ≤ s.options.retryLimit →
      (doWork s now env).state.jobQueue =
        queuePush (queueRemove job.id s.jobQueue)
          { job with tries := job.tries + 1, errors := job.errors ++ [e] }
          (if s.options.retryDelay ≠ 0 then some (now + s.options.retryDelay)
           else none) ∧
      (doWork s now env).state.errorCount = s.errorCount ∧
      Event.taskerror e job.data true ∈ (doWork s now env).events) ∧
    (¬ job.tries + 1 ≤ s.options.retryLimit →
      (doWork s now env).state.jobQueue = queueRemove job.id s.jobQueue ∧
      (doWork s now env).state.errorCount = s.errorCount + 1 ∧
      Event.taskerror e job.data false ∈ (doWork s now env).events) := by
  rw [doWork_commit s now env job hne hpeek hdup hdom hch hgw]
  unfold commitAndRun
  simp only [hres]
  simp only [htf, Bool.not_true, Bool.false_and, Bool.false_eq_true, if_false]
  unfold processResult
  simp only [hcb, Bool.false_eq_true, if_false, Job.addError,
    recordDomain_options, recordUrl_options]
  constructor
  · intro hwr
    simp only [if_pos hwr]
    refine ⟨?_, ?_, ?_⟩
    · simp
    · simp
    · simp
  · intro hwr
    simp only [if_neg hwr]
    refine ⟨?_, ?_, ?_⟩
    · simp
    · simp
    · simp

/-- C7 (amended) witness: the retry-behavior theorem instantiated at the
concrete negative-delay cluster, in its retrying branch. -/
theorem doWork_queue_error_retry_behavior_witness :
    (doWork stQ 100 envErrOutcome).state.jobQueue =
      queuePush (queueRemove jobQ.id stQ.jobQueue)
        { jobQ with tries := jobQ.tries + 1, errors := jobQ.errors ++ [⟨"E"⟩] }
        (if stQ.options.retryDelay ≠ 0 then some (100 + stQ.options.retryDelay)
         else none) ∧
    (doWork stQ 100 envErrOutcome).state.errorCount = stQ.errorCount ∧
    Event.taskerror ⟨"E"⟩ jobQ.data true ∈ (doWork stQ 100 envErrOutcome).events :=
  (doWork_queue_error_retry_behavior stQ 100 envErrOutcome jobQ ⟨"E"⟩
    (by decide) rfl rfl rfl rfl rfl rfl rfl rfl).1 (by decide)

/-- `processResult` preserves the options. -/
@[simp] theorem processResult_options {D R : Type} (s : ClusterState D)
    (now : Int) (job : Job D) (r : WorkResult R) :
    (processResult s now job r).1.options = s.options := by
  rcases r with d | e
  · simp only [processResult]
    split <;> rfl
  · simp only [processResult]
    split
    · rfl
    · split <;> rfl

/-- `processResult` preserves the duplicate-URL set. -/
@[simp] theorem processResult_dup {D R : Type} (s : ClusterState D)
    (now : Int) (job : Job D) (r : WorkResult R) :
    (processResult s now job r).1.duplicateCheckUrls =
      s.duplicateCheckUrls := by
  rcases r with d | e
  · simp only [processResult]
    split <;> rfl
  · simp only [processResult]
    split
    · rfl
    · split <;> rfl

/-- `processResult` never emits a dispatch event. -/
theorem processResult_no_dispatched {D R : Type} (s : ClusterState D)
    (now : Int) (job : Job D) (r : WorkResult R) (jid : Nat)
    (u : Option String) :
    Event.dispatched jid u ∉ (processResult s now job r).2 := by
  rcases r with d | e
  · simp only [processResult]
    split <;> simp
  · simp only [processResult]
    split
    · simp
    · split <;> simp

/-- `dispatchedUrls` distributes over concatenation. -/
theorem dispatchedUrls_append {D R : Type} (a b : List (Event D R)) :
    dispatchedUrls (a ++ b) = dispatchedUrls a ++ dispatchedUrls b := by
  simp [dispatchedUrls, List.filterMap_append]

/-- A dispatch of a job with a URL contributes that URL. -/
@[simp] theorem dispatchedUrls_cons_dispatched_some {D R : Type} (j : Nat)
    (u : String) (l : List (Event D R)) :
    dispatchedUrls (Event.dispatched j (some u) :: l) =
      u :: dispatchedUrls l := by
  simp [dispatchedUrls]

/-- A dispatch of a job without a URL contributes nothing. -/
@[simp] theorem dispatchedUrls_cons_dispatched_none {D R : Type} (j : Nat)
    (l : List (Event D R)) :
    dispatchedUrls (Event.dispatched j none :: l) = dispatchedUrls l := by
  simp [dispatchedUrls]

/-- Non-dispatch events contribute no URL. -/
@[simp] theorem dispatchedUrls_cons_workRequested {D R : Type}
    (l : List (Event D R)) :
    dispatchedUrls (Event.workRequested :: l) = dispatchedUrls l := rfl

/-- Non-dispatch events contribute no URL. -/
@[simp] theorem dispatchedUrls_cons_workerLaunched {D R : Type}
    (l : List (Event D R)) :
    dispatchedUrls (Event.workerLaunched :: l) = dispatchedUrls l := rfl

/-- Non-dispatch events contribute no URL. -/
@[simp] theorem dispatchedUrls_cons_idleResolved {D R : Type} (r : Nat)
    (l : List (Event D R)) :
    dispatchedUrls (Event.idleResolved r :: l) = dispatchedUrls l := rfl

/-- `dispatchedUrls` of the empty trace. -/
@[simp] theorem dispatchedUrls_nil {D R : Type} :
    dispatchedUrls ([] : List (Event D R)) = [] := rfl

/-- Idle resolutions contribute no URL. -/
@[simp] theorem dispatchedUrls_idleMap {D R : Type} (l : List Nat) :
    dispatchedUrls ((l.map Event.idleResolved : List (Event D R))) = [] := by
  induction l with
  | nil => rfl
  | cons x xs ih => simp [ih]

/-- `processResult` events carry no URL. -/
theorem dispatchedUrls_processResult {D R : Type} (s : ClusterState D)
    (now : Int) (job : Job D) (r : WorkResult R) :
    dispatchedUrls (processResult s now job r).2 = [] := by
  rcases r with d | e
  · simp only [processResult]
    split <;> simp [dispatchedUrls]
  · simp only [processResult]
    split
    · simp [dispatchedUrls]
    · split <;> simp [dispatchedUrls]

/-- Wait-for-one resolutions carry no URL. -/
@[simp] theorem dispatchedUrls_waitMap {D R : Type} (l : List Nat) (d : D) :
    dispatchedUrls
      ((l.map fun r => Event.waitForOneResolved r d : List (Event D R))) =
      [] := by
  induction l with
  | nil => rfl
  | cons x xs ih => simp [dispatchedUrls] at ih ⊢

/-- Membership in a set survives `setInsert`. -/
theorem mem_setInsert_of_mem {l : List String} {u : String} (v : String)
    (h : u ∈ l) : u ∈ setInsert l v := by
  unfold setInsert
  split
  · exact h
  · simp [h]

/-- The inserted element belongs to the result of `setInsert`. -/
theorem mem_setInsert_self (l : List String) (u : String) :
    u ∈ setInsert l u := by
  unfold setInsert
  split
  · rename_i h
    exact List.mem_of_elem_eq_true h
  · simp

/-- `recordUrl` can only grow the duplicate-URL set. -/
theorem recordUrl_dup_mono {D : Type} {s : ClusterState D} {job : Job D}
    {u : String} (h : u ∈ s.duplicateCheckUrls) :
    u ∈ (recordUrl s job).duplicateCheckUrls := by
  unfold recordUrl
  split
  · split
    · exact mem_setInsert_of_mem _ h
    · exact h
  · exact h

/-- Committing a job records its URL: when `skipDuplicateUrls` is on and the
job has a URL, the URL is in the duplicate set after `recordUrl`. -/
theorem recordUrl_adds {D : Type} (s : ClusterState D) (job : Job D)
    (v : String) (hskip : s.options.skipDuplicateUrls = true)
    (hurl : job.url = some v) :
    v ∈ (recordUrl s job).duplicateCheckUrls := by
  unfold recordUrl
  rw [if_pos hskip, hurl]
  exact mem_setInsert_self _ v

/-- `commitAndRun` preserves the options. -/
theorem commitAndRun_options {D R : Type} (s : ClusterState D) (now : Int)
    (env : StepEnv R) (job : Job D) :
    (commitAndRun s now env job).state.options = s.options := by
  unfold commitAndRun
  by_cases htf : (!job.hasTaskFunction && !s.clusterTaskDefined) = true
  · simp [htf]
  · rcases henv : env.handleOutcome with e | r <;> simp [htf, henv]

/-- `commitAndRun` can only grow the duplicate-URL set. -/
theorem commitAndRun_dup_mono {D R : Type} (s : ClusterState D) (now : Int)
    (env : StepEnv R) (job : Job D) (u : String)
    (h : u ∈ s.duplicateCheckUrls) :
    u ∈ (commitAndRun s now env job).state.duplicateCheckUrls := by
  have hbase : u ∈ (recordDomain
      (recordUrl { s with jobQueue := queueRemove job.id s.jobQueue } job)
      now job).duplicateCheckUrls := by
    rw [recordDomain_duplicateCheckUrls]
    exact recordUrl_dup_mono h
  unfold commitAndRun
  by_cases htf : (!job.hasTaskFunction && !s.clusterTaskDefined) = true
  · simpa [htf] using hbase
  · rcases henv : env.handleOutcome with e | r <;>
      simpa [htf, henv] using hbase

/-- After `commitAndRun` of a job with a URL under `skipDuplicateUrls`, the
URL is in the duplicate set of the resulting state. -/
theorem commitAndRun_adds_url {D R : Type} (s : ClusterState D) (now : Int)
    (env : StepEnv R) (job : Job D) (v : String)
    (hskip : s.options.skipDuplicateUrls = true)
    (hurl : job.url = some v) :
    v ∈ (commitAndRun s now env job).state.duplicateCheckUrls := by
  have hbase : v ∈ (recordDomain
      (recordUrl { s with jobQueue := queueRemove job.id s.jobQueue } job)
      now job).duplicateCheckUrls := by
    rw [recordDomain_duplicateCheckUrls]
    exact recordUrl_adds _ job v hskip hurl
  unfold commitAndRun
  by_cases htf : (!job.hasTaskFunction && !s.clusterTaskDefined) = true
  · simpa [htf] using hbase
  · rcases henv : env.handleOutcome with e | r <;>
      simpa [htf, henv] using hbase

/-- Every dispatch event emitted by `commitAndRun` names the committed job
and its URL. -/
theorem commitAndRun_dispatched_eq {D R : Type} (s : ClusterState D)
    (now : Int) (env : StepEnv R) (job : Job D) (jid : Nat)
    (u : Option String)
    (hmem : Event.dispatched jid u ∈ (commitAndRun s now env job).events) :
    jid = job.id ∧ u = job.url := by
  unfold commitAndRun at hmem
  by_cases htf : (!job.hasTaskFunction && !s.clusterTaskDefined) = true
  · revert hmem
    simp only [htf, if_true]
    split <;> simp
  · rcases henv : env.handleOutcome with e | r
    · revert hmem
      simp only [htf, henv]
      by_cases hfc : env.hasFreeCapacity = true <;> simp [hfc]
    · revert hmem
      simp only [htf, henv]
      by_cases hfc : env.hasFreeCapacity = true <;>
        simp [hfc, List.mem_append, processResult_no_dispatched]

/-- The URLs dispatched by one `commitAndRun` are nothing, or exactly the
committed job's URL. -/
theorem commitAndRun_urls {D R : Type} (s : ClusterState D) (now : Int)
    (env : StepEnv R) (job : Job D) :
    dispatchedUrls (commitAndRun s now env job).events = [] ∨
    (∃ u, job.url = some u ∧
      dispatchedUrls (commitAndRun s now env job).events = [u]) := by
  unfold commitAndRun
  by_cases htf : (!job.hasTaskFunction && !s.clusterTaskDefined) = true
  · left
    simp only [htf, if_true]
    split <;> simp
  · rcases henv : env.handleOutcome with e | r <;>
      rcases hurl : job.url with _ | u
    · left
      simp only [htf, henv]
      by_cases hfc : env.hasFreeCapacity = true <;>
        simp [hfc, hurl, dispatchedUrls_append]
    · right
      refine ⟨u, rfl, ?_⟩
      simp only [htf, henv]
      by_cases hfc : env.hasFreeCapacity = true <;>
        simp [hfc, hurl, dispatchedUrls_append]
    · left
      simp only [htf, henv]
      by_cases hfc : env.hasFreeCapacity = true <;>
        simp [hfc, hurl, dispatchedUrls_append, dispatchedUrls_processResult]
    · right
      refine ⟨u, rfl, ?_⟩
      simp only [htf, henv]
      by_cases hfc : env.hasFreeCapacity = true <;>
        simp [hfc, hurl, dispatchedUrls_append, dispatchedUrls_processResult]

/-- A `doWork` iteration preserves the configured options. -/
theorem doWork_options {D R : Type} (s : ClusterState D) (now : Int)
    (env : StepEnv R) : (doWork s now env).state.options = s.options := by
  by_cases hq : s.jobQueue.length = 0
  · rcases ha : env.isAnyJobActive with _ | _ <;> simp [doWork, hq, ha]
  · simp only [doWork, hq, if_false]
    rcases hpk : queuePeek now s.jobQueue with _ | job
    · simp [hpk]
    · simp only [hpk]
      by_cases hdup : shouldSkipDuplicate s job = true
      · simp [hdup]
      · rcases hdd : domainDelayInfo s now job with _ | t
        · by_cases hch : env.canHandle = true
          · by_cases hgw : env.getWorkerSome = true
            · simpa [hdup, hdd, hch, hgw] using
                commitAndRun_options s now env job
            · simp [hdup, hdd, hch, hgw]
          · by_cases hcl : env.canLaunchWorker = true <;>
              simp [hdup, hdd, hch, hcl]
        · simp [hdup, hdd]

/-- A `doWork` iteration can only grow the duplicate-URL set. -/
theorem doWork_dup_mono {D R : Type} (s : ClusterState D) (now : Int)
    (env : StepEnv R) (u : String) (h : u ∈ s.duplicateCheckUrls) :
    u ∈ (doWork s now env).state.duplicateCheckUrls := by
  by_cases hq : s.jobQueue.length = 0
  · rcases ha : env.isAnyJobActive with _ | _ <;> simpa [doWork, hq, ha] using h
  · simp only [doWork, hq, if_false]
    rcases hpk : queuePeek now s.jobQueue with _ | job
    · simpa [hpk] using h
    · simp only [hpk]
      by_cases hdup : shouldSkipDuplicate s job = true
      · simpa [hdup] using h
      · rcases hdd : domainDelayInfo s now job with _ | t
        · by_cases hch : env.canHandle = true
          · by_cases hgw : env.getWorkerSome = true
            · simpa [hdup, hdd, hch, hgw] using
                commitAndRun_dup_mono s now env job u h
            · simpa [hdup, hdd, hch, hgw] using h
          · by_cases hcl : env.canLaunchWorker = true <;>
              simpa [hdup, hdd, hch, hcl] using h
        · simpa [hdup, hdd] using h

/-- With `skipDuplicateUrls` on, a passed duplicate filter means the job's
URL was not yet in the duplicate set. -/
theorem url_not_in_dup_of_filter_passed {D : Type} (s : ClusterState D)
    (job : Job D) (v : String)
    (hskip : s.options.skipDuplicateUrls = true)
    (hdup : shouldSkipDuplicate s job = false)
    (hurl : job.url = some v) : v ∉ s.duplicateCheckUrls := by
  unfold shouldSkipDuplicate at hdup
  rw [hskip, hurl] at hdup
  simp at hdup
  intro hmem
  exact absurd (List.elem_eq_true_of_mem hmem) (by simpa using hdup)

/-- With `skipDuplicateUrls` on, one `doWork` iteration dispatches no URL,
or exactly one URL that was not yet in the duplicate set and is in the set
afterwards. -/
theorem doWork_stepUrls {D R : Type} (s : ClusterState D) (now : Int)
    (env : StepEnv R) (hskip : s.options.skipDuplicateUrls = true) :
    dispatchedUrls (doWork s now env).events = [] ∨
    (∃ u, dispatchedUrls (doWork s now env).events = [u] ∧
      u ∉ s.duplicateCheckUrls ∧
      u ∈ (doWork s now env).state.duplicateCheckUrls) := by
  by_cases hq : s.jobQueue.length = 0
  · left
    rcases ha : env.isAnyJobActive with _ | _ <;> simp [doWork, hq, ha]
  · simp only [doWork, hq, if_false]
    rcases hpk : queuePeek now s.jobQueue with _ | job
    · left
      simp [hpk]
    · simp only [hpk]
      by_cases hdup : shouldSkipDuplicate s job = true
      · left
        simp [hdup]
      · rcases hdd : domainDelayInfo s now job with _ | t
        · by_cases hch : env.canHandle = true
          · by_cases hgw : env.getWorkerSome = true
            · simp only [hdup, hdd, hch, hgw, Bool.not_true, if_false,
                Bool.false_eq_true, ite_false, Bool.not_false]
              rcases commitAndRun_urls s now env job with h | ⟨u, hurl, h⟩
              · left
                simpa using h
              · right
                refine ⟨u, by simpa using h, ?_, ?_⟩
                · exact url_not_in_dup_of_filter_passed s job u hskip
                    (by simpa using hdup) hurl
                · simpa using commitAndRun_adds_url s now env job u hskip hurl
            · left
              simp [hdup, hdd, hch, hgw]
          · left
            by_cases hcl : env.canLaunchWorker = true <;>
              simp [hdup, hdd, hch, hcl]
        · left
          simp [hdup, hdd]

/-- With `skipDuplicateUrls` on, a job committed with URL `u` had `u` outside
the duplicate set when the iteration began, and `u` is in the set of the
resulting state (it is added before the task runs). -/
theorem doWork_dispatched_mem {D R : Type} (s : ClusterState D) (now : Int)
    (env : StepEnv R) (jid : Nat) (u : String)
    (hskip : s.options.skipDuplicateUrls = true)
    (hmem : Event.dispatched jid (some u) ∈ (doWork s now env).events) :
    u ∉ s.duplicateCheckUrls ∧
    u ∈ (doWork s now env).state.duplicateCheckUrls := by
  by_cases hq : s.jobQueue.length = 0
  · rcases ha : env.isAnyJobActive with _ | _ <;> simp [doWork, hq, ha] at hmem
  · simp only [doWork, hq, if_false] at hmem ⊢
    rcases hpk : queuePeek now s.jobQueue with _ | job
    · simp [hpk] at hmem
    · simp only [hpk] at hmem ⊢
      by_cases hdup : shouldSkipDuplicate s job = true
      · simp [hdup] at hmem
      · rcases hdd : domainDelayInfo s now job with _ | t
        · by_cases hch : env.canHandle = true
          · by_cases hgw : env.getWorkerSome = true
            · simp only [hdup, hdd, hch, hgw, Bool.not_true, if_false,
                Bool.false_eq_true, ite_false, Bool.not_false] at hmem ⊢
              have heq := commitAndRun_dispatched_eq s now env job jid
                (some u) (by simpa using hmem)
              refine ⟨url_not_in_dup_of_filter_passed s job u hskip
                  (by simpa using hdup) heq.2.symm, ?_⟩
              simpa using
                commitAndRun_adds_url s now env job u hskip heq.2.symm
            · simp [hdup, hdd, hch, hgw] at hmem
          · by_cases hcl : env.canLaunchWorker = true <;>
              simp [hdup, hdd, hch, hcl] at hmem
        · simp [hdup, hdd] at hmem

/-- A run of `doWork` iterations preserves the options. -/
theorem runSteps_options {D R : Type} (s : ClusterState D)
    (ins : List (StepIn R)) : (runSteps s ins).1.options = s.options := by
  induction ins generalizing s with
  | nil => rfl
  | cons i rest ih =>
    simp only [runSteps]
    rw [ih (doWork s i.now i.env).state, doWork_options]

/-- No URL dispatched during a run with `skipDuplicateUrls` on was in the
duplicate set at the start of the run. -/
theorem runSteps_urls_disjoint {D R : Type} (s : ClusterState D)
    (ins : List (StepIn R)) (hskip : s.options.skipDuplicateUrls = true) :
    ∀ u, u ∈ dispatchedUrls (runSteps s ins).2 →
      u ∉ s.duplicateCheckUrls := by
  induction ins generalizing s with
  | nil => simp [runSteps]
  | cons i rest ih =>
    intro u hu
    simp only [runSteps, dispatchedUrls_append, List.mem_append] at hu
    have hskip2 : (doWork s i.now i.env).state.options.skipDuplicateUrls =
        true := by rw [doWork_options]; exact hskip
    rcases hu with hu | hu
    · rcases doWork_stepUrls s i.now i.env hskip with h | ⟨v, hv, hnot, _⟩
      · rw [h] at hu
        cases hu
      · rw [hv] at hu
        rcases List.mem_singleton.mp hu with rfl
        exact hnot
    · intro hmem
      exact ih (doWork s i.now i.env).state hskip2 u hu
        (doWork_dup_mono s i.now i.env u hmem)

/-- With `skipDuplicateUrls` on, the URLs dispatched during any run of the
dispatch loop are pairwise distinct. -/
theorem runSteps_urls_nodup {D R : Type} (s : ClusterState D)
    (ins : List (StepIn R)) (hskip : s.options.skipDuplicateUrls = true) :
    (dispatchedUrls (runSteps s ins).2).Nodup := by
  induction ins generalizing s with
  | nil => simp [runSteps]
  | cons i rest ih =>
    simp only [runSteps, dispatchedUrls_append]
    have hskip2 : (doWork s i.now i.env).state.options.skipDuplicateUrls =
        true := by rw [doWork_options]; exact hskip
    rcases doWork_stepUrls s i.now i.env hskip with h | ⟨v, hv, _, hin⟩
    · rw [h]
      simpa using ih (doWork s i.now i.env).state hskip2
    · rw [hv, List.singleton_append, List.nodup_cons]
      refine ⟨?_, by simpa using ih (doWork s i.now i.env).state hskip2⟩
      intro hmem
      exact runSteps_urls_disjoint (doWork s i.now i.env).state rest hskip2 v
        hmem hin

/-- C8: with `skipDuplicateUrls` on, (i) over any run of dispatch iterations
the dispatched URL strings are pairwise distinct — every URL is dispatched
to a worker at most once; (ii) a peeked job whose URL is already in the
duplicate set is removed from the queue without being dispatched (the
iteration only requests another dispatch); (iii) a job committed with URL
`u` had `u` outside the duplicate set and `u` is in the duplicate set of the
post-iteration state (it is added before the task runs). -/
theorem doWork_skipDuplicateUrls_at_most_once {D R : Type} :
    (∀ (s : ClusterState D) (ins : List (StepIn R)),
      s.options.skipDuplicateUrls = true →
      (dispatchedUrls (runSteps s ins).2).Nodup) ∧
    (∀ (s : ClusterState D) (now : Int) (env : StepEnv R) (job : Job D),
      s.jobQueue.length ≠ 0 →
      queuePeek now s.jobQueue = some job →
      shouldSkipDuplicate s job = true →
      doWork s now env =
        ⟨{ s with jobQueue := queueRemove job.id s.jobQueue },
          [Event.workRequested], none⟩) ∧
    (∀ (s : ClusterState D) (now : Int) (env : StepEnv R) (jid : Nat)
      (u : String),
      s.options.skipDuplicateUrls = true →
      Event.dispatched jid (some u) ∈ (doWork s now env).events →
      u ∉ s.duplicateCheckUrls ∧
      u ∈ (doWork s now env).state.duplicateCheckUrls) := by
  refine ⟨fun s ins h => runSteps_urls_nodup s ins h, ?_,
    fun s now env jid u h hm => doWork_dispatched_mem s now env jid u h hm⟩
  intro s now env job hne hpeek hdup
  simp [doWork, hne, hpeek, hdup]

/-- C8 witness: the three parts instantiated on a concrete deduplicating
cluster: a run over two same-URL jobs dispatches `"u1"` exactly once; the
duplicate-filter iteration drops the second job; and the first dispatch adds
`"u1"` to the set it was absent from. -/
theorem doWork_skipDuplicateUrls_at_most_once_witness :
    (dispatchedUrls (runSteps stU insU).2).Nodup ∧
    doWork stDup 1 envOkOutcome =
      ⟨{ stDup with jobQueue := queueRemove jobU2.id stDup.jobQueue },
        [Event.workRequested], none⟩ ∧
    ("u1" ∉ stU.duplicateCheckUrls ∧
      "u1" ∈ (doWork stU 0 envOkOutcome).state.duplicateCheckUrls) :=
  ⟨doWork_skipDuplicateUrls_at_most_once.1 stU insU rfl,
   doWork_skipDuplicateUrls_at_most_once.2.1 stDup 1 envOkOutcome jobU2
     (by decide) rfl rfl,
   doWork_skipDuplicateUrls_at_most_once.2.2 stU 0 envOkOutcome 10 "u1"
     rfl (by decide)⟩
